import Mathlib

/-!
Verification of the Pull-Up Club maintenance scripts
(`scripts/automations/daily_consistency_check.py` and
`scripts/automations/system_health_check.py`).

Both scripts are sequential orchestrators around remote calls.  We embed a
run of each script as a pure function over an environment record that fixes
the outcome of every remote call the run can make (an `Except String _`
models a call that can raise).  The run returns the process exit code, the
list of printed lines, and a trace of the mutating remote calls issued.
-/

set_option maxRecDepth 4000

/-- A record returned by the `get_submissions_missing_earnings` report. -/
structure Submission where
  submission_id : String
  user_id : String
  actual_pull_up_count : Nat
  full_name : String
deriving DecidableEq

/-- A record returned by the `get_payout_mismatches` report. -/
structure Mismatch where
  payout_id : String
  full_name : String
  current_amount : Int
  correct_amount : Int
deriving DecidableEq

/-- A record returned by the `get_pool_balance_issues` report. -/
structure PoolIssue where
  week_start : String
  week_end : String
  remaining : Int
  calculated : Int
deriving DecidableEq

/-- The payload of a `process_submission_earnings` RPC result
(`result.data` field accesses `success` and `dollars_earned`). -/
structure EarningsData where
  success : Bool
  dollars_earned : Int
deriving DecidableEq

/-- Values stored in the `details` dict of the consistency checker:
issue counts (int) or stringified exceptions. -/
inductive DVal where
  | num (n : Nat)
  | str (s : String)
deriving DecidableEq

/-- Mutating remote calls the consistency checker can issue. -/
inductive DCEv where
  | processEarningsCall (p_submission_id p_user_id : String) (p_pull_up_count : Nat)
  | payoutUpdateCall (id : String) (amount_dollars : Int) (updated_at : String)
  | monitoringInsert (error_type error_message : String) (context : List (String × DVal))
deriving DecidableEq

/-- Environment of one consistency-checker run: the `DRY_RUN` flag, the
current time, and the outcome of every remote call the run may perform.
`Except.error e` models the call raising an exception whose string form is
`e`; `Option` models a possibly empty / absent `result.data`. -/
structure DCEnv where
  dryRun : Bool
  now : String
  rpcMissingEarnings : Except String (Option (List Submission))
  rpcPayoutMismatches : Except String (Option (List Mismatch))
  rpcPoolBalanceIssues : Except String (Option (List PoolIssue))
  procEarnings : Submission → Except String (Option EarningsData)
  updPayoutRequests : Mismatch → Except String (Option (List Mismatch))
  insertMonitoring : Except String Unit

/-- `check_missing_earnings`: returns `result.data` when truthy, else `[]`. -/
def check_missing_earnings (env : DCEnv) : Except String (List Submission) :=
  match env.rpcMissingEarnings with
  | .error e => .error e
  | .ok d =>
      .ok (match d with
        | some l => if l.isEmpty then [] else l
        | none => [])

/-- `check_payout_mismatches`: returns `result.data` when truthy, else `[]`. -/
def check_payout_mismatches (env : DCEnv) : Except String (List Mismatch) :=
  match env.rpcPayoutMismatches with
  | .error e => .error e
  | .ok d =>
      .ok (match d with
        | some l => if l.isEmpty then [] else l
        | none => [])

/-- `check_pool_balance_issues`: returns `result.data` when truthy, else `[]`. -/
def check_pool_balance_issues (env : DCEnv) : Except String (List PoolIssue) :=
  match env.rpcPoolBalanceIssues with
  | .error e => .error e
  | .ok d =>
      .ok (match d with
        | some l => if l.isEmpty then [] else l
        | none => [])

/-- Python truthiness of `result.data and result.data.get("success")`. -/
def dataTruthy : Option EarningsData → Bool
  | some d => d.success
  | none => false

/-- `result.data.get("dollars_earned", 0)`. -/
def dollarsEarnedOf : Option EarningsData → Int
  | some d => d.dollars_earned
  | none => 0

/-- Rendering of `result.data` used in the `Failed` print line. -/
def showOptEarnings : Option EarningsData → String
  | none => "None"
  | some d =>
      "\x7bsuccess: " ++ toString d.success ++ ", dollars_earned: " ++
        toString d.dollars_earned ++ "\x7d"

/-- The accumulated `{"fixed": ..., "failed": ...}` dict of a fix loop. -/
structure FixResult where
  fixed : Nat
  failed : Nat
deriving DecidableEq

/-- `fix_missing_earnings`: one `process_submission_earnings` RPC per
submission; counts a fix only when `result.data` is truthy and its
`success` flag is set, a failure otherwise or when the call raises. -/
def fix_missing_earnings (env : DCEnv) : List Submission → FixResult × List String × List DCEv
  | [] => (⟨0, 0⟩, [], [])
  | sub :: rest =>
      let ev := DCEv.processEarningsCall sub.submission_id sub.user_id sub.actual_pull_up_count
      let step : FixResult × String :=
        match env.procEarnings sub with
        | .error e => (⟨0, 1⟩, "  ✗ Error: " ++ sub.full_name ++ " - " ++ e)
        | .ok data =>
            if dataTruthy data then
              (⟨1, 0⟩, "  ✓ Fixed: " ++ sub.full_name ++ " - $" ++ toString (dollarsEarnedOf data))
            else
              (⟨0, 1⟩, "  ✗ Failed: " ++ sub.full_name ++ " - " ++ showOptEarnings data)
      let r := fix_missing_earnings env rest
      (⟨step.1.fixed + r.1.fixed, step.1.failed + r.1.failed⟩, step.2 :: r.2.1, ev :: r.2.2)

/-- `fix_payout_mismatches`: one `payout_requests` update per mismatch;
counts a fix whenever the update call does not raise (its result is never
inspected), a failure when it raises. -/
def fix_payout_mismatches (env : DCEnv) : List Mismatch → FixResult × List String × List DCEv
  | [] => (⟨0, 0⟩, [], [])
  | m :: rest =>
      let ev := DCEv.payoutUpdateCall m.payout_id m.correct_amount env.now
      let step : FixResult × String :=
        match env.updPayoutRequests m with
        | .error e => (⟨0, 1⟩, "  ✗ Error: " ++ m.full_name ++ " - " ++ e)
        | .ok _ =>
            (⟨1, 0⟩, "  ✓ Fixed: " ++ m.full_name ++ " $" ++ toString m.current_amount ++
              " → $" ++ toString m.correct_amount)
      let r := fix_payout_mismatches env rest
      (⟨step.1.fixed + r.1.fixed, step.1.failed + r.1.failed⟩, step.2 :: r.2.1, ev :: r.2.2)

/-- `log_check_result`: best-effort insert into `monitoring.system_errors`;
the attempt is always issued, an exception only prints a warning. -/
def log_check_result (env : DCEnv) (issues_found issues_fixed : Nat)
    (details : List (String × DVal)) : List String × List DCEv :=
  let ev := DCEv.monitoringInsert "DAILY_CONSISTENCY_CHECK"
    ("Found " ++ toString issues_found ++ " issues, fixed " ++ toString issues_fixed) details
  match env.insertMonitoring with
  | .ok _ => ([], [ev])
  | .error e => (["Warning: Could not log to monitoring table: " ++ e], [ev])

/-- Outcome of one numbered check section of the consistency checker. -/
structure CheckOut where
  issues : Nat
  fixed : Nat
  output : List String
  events : List DCEv
  details : List (String × DVal)
deriving DecidableEq

/-- Check 1 of `main`: missing earnings (report, count, optionally fix). -/
def dcCheck1 (env : DCEnv) : CheckOut :=
  let header := ["\n[1/3] Checking for approved submissions without earnings..."]
  match check_missing_earnings env with
  | .error e =>
      ⟨0, 0, header ++ ["  ✗ Check failed: " ++ e], [], [("missing_earnings_error", DVal.str e)]⟩
  | .ok missing =>
      if missing.isEmpty then
        ⟨0, 0, header ++ ["  ✓ No issues found"], [], []⟩
      else
        let base := header ++ ["  Found " ++ toString missing.length ++ " submissions missing earnings"]
        if env.dryRun then
          ⟨missing.length, 0, base, [], [("missing_earnings", DVal.num missing.length)]⟩
        else
          let fr := fix_missing_earnings env missing
          ⟨missing.length, fr.1.fixed, base ++ fr.2.1, fr.2.2,
            [("missing_earnings", DVal.num missing.length),
             ("earnings_fixed", DVal.num fr.1.fixed)]⟩

/-- Check 2 of `main`: payout mismatches (report, count, optionally fix). -/
def dcCheck2 (env : DCEnv) : CheckOut :=
  let header := ["\n[2/3] Checking for payout amount mismatches..."]
  match check_payout_mismatches env with
  | .error e =>
      ⟨0, 0, header ++ ["  ✗ Check failed: " ++ e], [], [("payout_mismatch_error", DVal.str e)]⟩
  | .ok mismatches =>
      if mismatches.isEmpty then
        ⟨0, 0, header ++ ["  ✓ No issues found"], [], []⟩
      else
        let base := header ++ ["  Found " ++ toString mismatches.length ++ " payout mismatches"]
        if env.dryRun then
          ⟨mismatches.length, 0, base, [], [("payout_mismatches", DVal.num mismatches.length)]⟩
        else
          let fr := fix_payout_mismatches env mismatches
          ⟨mismatches.length, fr.1.fixed, base ++ fr.2.1, fr.2.2,
            [("payout_mismatches", DVal.num mismatches.length),
             ("payouts_fixed", DVal.num fr.1.fixed)]⟩

/-- Check 3 of `main`: pool balance discrepancies (report only, no fix). -/
def dcCheck3 (env : DCEnv) : CheckOut :=
  let header := ["\n[3/3] Checking for pool balance discrepancies..."]
  match check_pool_balance_issues env with
  | .error e =>
      ⟨0, 0, header ++ ["  ✗ Check failed: " ++ e], [], [("pool_balance_error", DVal.str e)]⟩
  | .ok pool_issues =>
      if pool_issues.isEmpty then
        ⟨0, 0, header ++ ["  ✓ No issues found"], [], []⟩
      else
        ⟨pool_issues.length, 0,
          header ++ ["  Found " ++ toString pool_issues.length ++ " pool balance issues"] ++
            pool_issues.map (fun p =>
              "    - " ++ p.week_start ++ " to " ++ p.week_end ++ ": shows $" ++
                toString p.remaining ++ " but should be $" ++ toString p.calculated),
          [], [("pool_issues", DVal.num pool_issues.length)]⟩

/-- The `"=" * 60` separator line. -/
def sepLine : String :=
  String.mk (List.replicate 60 (Char.ofNat 61))

/-- The result of one consistency-checker run. -/
structure DCRun where
  exitCode : Nat
  output : List String
  events : List DCEv
  totalIssues : Nat
  totalFixed : Nat
  details : List (String × DVal)
deriving DecidableEq

/-- `main` of `daily_consistency_check.py`: runs the three checks in
sequence, prints a summary, best-effort-logs when issues were found in
live mode, and exits 1 when any issues were found, else 0. -/
def dc_main (env : DCEnv) : DCRun :=
  let header : List String :=
    [sepLine, "Pull-Up Club Daily Consistency Check",
     "Time: " ++ env.now ++ "Z",
     "Mode: " ++ (if env.dryRun then "DRY RUN" else "LIVE"), sepLine]
  let c1 := dcCheck1 env
  let c2 := dcCheck2 env
  let c3 := dcCheck3 env
  let totalIssues := c1.issues + c2.issues + c3.issues
  let totalFixed := c1.fixed + c2.fixed + c3.fixed
  let details := c1.details ++ c2.details ++ c3.details
  let summary : List String :=
    ["\n" ++ sepLine, "SUMMARY", sepLine,
     "Total issues found: " ++ toString totalIssues,
     "Total issues fixed: " ++ toString totalFixed]
  let logPart : List String × List DCEv :=
    if 0 < totalIssues ∧ env.dryRun = false then
      log_check_result env totalIssues totalFixed details
    else ([], [])
  let tail : List String :=
    if 0 < totalIssues then ["\n⚠️  Issues were found. Review the output above."]
    else ["\n✅ All checks passed!"]
  { exitCode := if 0 < totalIssues then 1 else 0,
    output := header ++ c1.output ++ c2.output ++ c3.output ++ summary ++ logPart.1 ++ tail,
    events := c1.events ++ c2.events ++ logPart.2,
    totalIssues := totalIssues,
    totalFixed := totalFixed,
    details := details }

/-- Number of records a report-style call contributes to the issue total:
the length of the returned list, `0` when the call raised or returned no
data. -/
def reportLen {α : Type} : Except String (Option (List α)) → Nat
  | .ok (some l) => l.length
  | .ok none => 0
  | .error _ => 0

/-- The total issue count of a consistency-checker run, computed directly
from the three report-call outcomes of the environment. -/
def dcTotalIssuesSpec (env : DCEnv) : Nat :=
  reportLen env.rpcMissingEarnings + reportLen env.rpcPayoutMismatches +
    reportLen env.rpcPoolBalanceIssues

/-- A row of the `email_notifications` select in the email-queue check. -/
structure EmailRow where
  status : String
  email_type : String
deriving DecidableEq

/-- One entry of `pool_balances.details` in the SQL health summary. -/
structure PoolFixDetail where
  week_start : String
  was : Int
  now : Int
deriving DecidableEq

/-- One entry of `monthly_payouts.issues` in the SQL health summary. -/
structure PayoutIssueItem where
  name : String
  type : String
deriving DecidableEq

/-- A record returned by the `get_users_missing_graphics` report; keys may
be absent, hence the options. -/
structure GUser where
  full_name : Option String
  total_dollars : Option Int
deriving DecidableEq

/-- A row of the recent-approvals select in the edge-function check. -/
structure SubRow where
  id : String
  approved_at : String
  user_id : String
deriving DecidableEq

/-- The structured result of the `run_system_health_check` RPC, with the
defaults the script applies on each `.get` access already folded in.
`overall_status` stays optional because the summary compares the raw
`sql.get("overall_status")` against `"healthy"`. -/
structure SqlData where
  overall_status : Option String
  weekly_pool_action : Option String
  weekly_pool_week_start : Option String
  weekly_pool_week_end : Option String
  duplicates_fixed : Nat
  pools_fixed : Nat
  pool_fix_details : List PoolFixDetail
  payouts_issues_found : Nat
  payouts_month : Option String
  payouts_issues : List PayoutIssueItem
  pending_emails : Nat
deriving DecidableEq

/-- What `run_sql_health_check` returns: the data dict, or the
`{"overall_status": "error", "message": ...}` fallback dict. -/
inductive SqlResult where
  | data (d : SqlData)
  | err (message : String)
deriving DecidableEq

/-- `sql.get("overall_status")` on the dict `run_sql_health_check` returned. -/
def SqlResult.overallStatus : SqlResult → Option String
  | .data d => d.overall_status
  | .err _ => some "error"

/-- What `check_email_queue_health` returns: counts, or `{"error": ...}`. -/
inductive EmailResult where
  | counts (pending failed stuck : Nat) (by_type : List (String × Nat))
  | err (msg : String)
deriving DecidableEq

/-- What `check_monthly_graphics` returns: counts, or `{"skipped": True}`. -/
inductive GraphicsResult where
  | counts (month : String) (missing_graphics pending_emails : Nat)
  | skipped
deriving DecidableEq

/-- What `check_edge_function_health` returns: the approval count (with
`"healthy": True`), or `{"error": ...}`. -/
inductive EdgeResult where
  | counts (recent_approvals : Nat)
  | err (msg : String)
deriving DecidableEq

/-- The `results` dict accumulated by the health checker's `main`. -/
structure HCResults where
  sql_health : SqlResult
  email_queue : EmailResult
  monthly_graphics : GraphicsResult
  edge_functions : EdgeResult
deriving DecidableEq

/-- Mutating remote calls the health checker can issue. -/
inductive HCEv where
  | healthInsert (check_type status : String) (results : HCResults) (created_at : String)
deriving DecidableEq

/-- Environment of one health-checker run: the `--dry-run` flag, the
current time and previous month strings, and the outcome of every remote
call the run may perform. -/
structure HCEnv where
  dryRun : Bool
  now : String
  prevMonth : String
  rpcRunSystemHealthCheck : Except String (Option SqlData)
  emailSelect : Except String (Option (List EmailRow))
  stuckSelect : Except String (Option Nat)
  rpcMissingGraphics : Except String (Option (List GUser))
  pendingGraphicSelect : Except String (Option Nat)
  recentApprovedSelect : Except String (Option (List SubRow))
  earningsCountSelect : List String → Except String (Option Nat)
  insertHealthResult : Except String Unit

/-- `pool.get(key)` rendering: `None` when the key is absent. -/
def optStr : Option String → String
  | some s => s
  | none => "None"

/-- `run_sql_health_check`: reports the structured summary, degrading a
raised exception or missing data to an `"error"` status dict. -/
def run_sql_health_check (env : HCEnv) : SqlResult × List String :=
  let out := ["\n[1/5] Running SQL health check..."]
  match env.rpcRunSystemHealthCheck with
  | .error e => (.err e, out ++ ["  ERROR: " ++ e])
  | .ok none => (.err "No data returned", out)
  | .ok (some d) =>
      let out := out ++ ["  Overall status: " ++ (d.overall_status.getD "unknown")]
      let out := out ++ ["  Weekly pool: " ++ (d.weekly_pool_action.getD "unknown") ++ " - " ++
        optStr d.weekly_pool_week_start ++ " to " ++ optStr d.weekly_pool_week_end]
      let out :=
        if 0 < d.duplicates_fixed then
          out ++ ["  FIXED: " ++ toString d.duplicates_fixed ++ " duplicate pools removed"]
        else out ++ ["  No duplicate pools"]
      let out :=
        if 0 < d.pools_fixed then
          out ++ ["  FIXED: " ++ toString d.pools_fixed ++ " pool balances corrected"] ++
            d.pool_fix_details.map (fun f =>
              "    - " ++ f.week_start ++ ": $" ++ toString f.was ++ " -> $" ++ toString f.now)
        else out ++ ["  Pool balances correct"]
      let out :=
        if 0 < d.payouts_issues_found then
          out ++ ["  WARNING: " ++ toString d.payouts_issues_found ++ " payout issues for " ++
              optStr d.payouts_month] ++
            d.payouts_issues.map (fun i => "    - " ++ i.name ++ ": " ++ i.type)
        else out ++ ["  Monthly payouts OK for " ++ optStr d.payouts_month]
      let out := out ++ ["  Pending emails: " ++ toString d.pending_emails]
      (.data d, out)

/-- `by_type[t] = by_type.get(t, 0) + 1` on an insertion-ordered dict. -/
def bumpType (bt : List (String × Nat)) (t : String) : List (String × Nat) :=
  match bt with
  | [] => [(t, 1)]
  | (k, v) :: rest => if k = t then (k, v + 1) :: rest else (k, v) :: bumpType rest t

/-- Rendering of the `by_type` dict for the `By type:` print line. -/
def showByType (bt : List (String × Nat)) : String :=
  "\x7b" ++ String.intercalate ", " (bt.map (fun kv => kv.1 ++ ": " ++ toString kv.2)) ++ "\x7d"

/-- `check_email_queue_health`: classifies unsent notifications by status,
counts stuck pending emails, degrading a raised exception to an error
dict. -/
def check_email_queue_health (env : HCEnv) : EmailResult × List String :=
  let out := ["\n[2/5] Checking email queue health..."]
  match env.emailSelect with
  | .error e => (.err e, out ++ ["  ERROR: " ++ e])
  | .ok d =>
      let rows := d.getD []
      let counted : Nat × Nat × List (String × Nat) :=
        rows.foldl
          (fun acc em =>
            if em.status = "pending" then
              (acc.1 + 1, acc.2.1, bumpType acc.2.2 em.email_type)
            else if em.status = "failed" then
              (acc.1, acc.2.1 + 1, acc.2.2)
            else acc)
          (0, 0, [])
      let pending_count := counted.1
      let failed_count := counted.2.1
      let by_type := counted.2.2
      let out := out ++ ["  Pending: " ++ toString pending_count ++ ", Failed: " ++ toString failed_count]
      let out := if by_type.isEmpty then out else out ++ ["  By type: " ++ showByType by_type]
      match env.stuckSelect with
      | .error e => (.err e, out ++ ["  ERROR: " ++ e])
      | .ok c =>
          let stuck_count := c.getD 0
          let out :=
            if 0 < stuck_count then
              out ++ ["  WARNING: " ++ toString stuck_count ++ " emails stuck for over 1 hour"]
            else out
          (.counts pending_count failed_count stuck_count by_type, out)

/-- `check_monthly_graphics`: lists users with earnings but no graphic for
the previous month and counts pending graphic emails; any exception makes
the whole check return `{"skipped": True}`. -/
def check_monthly_graphics (env : HCEnv) : GraphicsResult × List String :=
  let out := ["\n[3/5] Checking monthly graphics status..."]
  match env.rpcMissingGraphics with
  | .error e => (.skipped, out ++ ["  Note: Graphics check skipped (" ++ e ++ ")"])
  | .ok d =>
      let missing := d.getD []
      let out :=
        if missing.isEmpty then
          out ++ ["  All graphics generated for " ++ env.prevMonth]
        else
          out ++ ["  WARNING: " ++ toString missing.length ++ " users missing graphics for " ++
              env.prevMonth] ++
            (missing.take 5).map (fun u =>
              "    - " ++ (u.full_name.getD "Unknown") ++ ": $" ++ toString (u.total_dollars.getD 0)) ++
            (if 5 < missing.length then ["    ... and " ++ toString (missing.length - 5) ++ " more"]
             else [])
      match env.pendingGraphicSelect with
      | .error e => (.skipped, out ++ ["  Note: Graphics check skipped (" ++ e ++ ")"])
      | .ok c =>
          let pending_count := c.getD 0
          (.counts env.prevMonth missing.length pending_count,
           out ++ ["  Pending graphic emails: " ++ toString pending_count])

/-- `check_edge_function_health`: counts recent approved submissions and,
when there are any, how many have earnings rows; degrades a raised
exception to an error dict. -/
def check_edge_function_health (env : HCEnv) : EdgeResult × List String :=
  let out := ["\n[4/5] Checking Edge Function health..."]
  match env.recentApprovedSelect with
  | .error e => (.err e, out ++ ["  ERROR: " ++ e])
  | .ok d =>
      let rows := d.getD []
      let approved_count := rows.length
      if 0 < approved_count then
        let submission_ids := rows.map (fun s => s.id)
        match env.earningsCountSelect submission_ids with
        | .error e => (.err e, out ++ ["  ERROR: " ++ e])
        | .ok c =>
            let earnings_count := c.getD 0
            let out :=
              if earnings_count < approved_count then
                out ++ ["  WARNING: " ++ toString approved_count ++
                  " approved submissions but only " ++ toString earnings_count ++ " earnings records"]
              else
                out ++ ["  " ++ toString approved_count ++ " recent approvals, all have earnings"]
            (.counts approved_count, out)
      else
        (.counts 0, out ++ ["  No recent approvals to check"])

/-- `email.get("stuck", 0)` on the email-queue result dict. -/
def emailStuck : EmailResult → Nat
  | .counts _ _ s _ => s
  | .err _ => 0

/-- `email.get("failed", 0)` on the email-queue result dict. -/
def emailFailed : EmailResult → Nat
  | .counts _ f _ _ => f
  | .err _ => 0

/-- `graphics.get("missing_graphics", 0)` on the graphics result dict. -/
def graphicsMissing : GraphicsResult → Nat
  | .counts _ m _ => m
  | .skipped => 0

/-- `edge.get("error")` on the edge-function result dict. -/
def edgeError : EdgeResult → Option String
  | .counts _ => none
  | .err e => some e

/-- Python truthiness of `edge.get("error")`: the key is present and its
string value is nonempty. -/
def edgeErrorTruthy (r : EdgeResult) : Bool :=
  match edgeError r with
  | some e => !e.isEmpty
  | none => false

/-- The issue list `generate_summary_report` accumulates. -/
def issuesList (results : HCResults) : List String :=
  let issues : List String := []
  let issues :=
    if results.sql_health.overallStatus ≠ some "healthy" then
      issues ++ ["SQL health check found issues"]
    else issues
  let issues :=
    if 0 < emailStuck results.email_queue then
      issues ++ [toString (emailStuck results.email_queue) ++ " emails stuck in queue"]
    else issues
  let issues :=
    if 10 < emailFailed results.email_queue then
      issues ++ [toString (emailFailed results.email_queue) ++ " failed emails"]
    else issues
  let issues :=
    if 0 < graphicsMissing results.monthly_graphics then
      issues ++ [toString (graphicsMissing results.monthly_graphics) ++ " users missing monthly graphics"]
    else issues
  match edgeError results.edge_functions with
  | some e =>
      if e.isEmpty then issues
      else issues ++ ["Edge function check error: " ++ e]
  | none => issues

/-- `generate_summary_report`: `"issues_found"` when the issue list is
nonempty, else `"healthy"`. -/
def generate_summary_report (results : HCResults) : String × List String :=
  let out := ["\n[5/5] Generating summary..."]
  let issues := issuesList results
  if issues.isEmpty then
    ("healthy", out ++ ["\n  ALL SYSTEMS HEALTHY"])
  else
    ("issues_found", out ++ ["\n  ISSUES FOUND: " ++ toString issues.length] ++
      issues.map (fun i => "    - " ++ i))

/-- The result of one health-checker run. -/
structure HCRun where
  exitCode : Nat
  status : String
  output : List String
  events : List HCEv
  results : HCResults
deriving DecidableEq

/-- `main` of `system_health_check.py`: runs the four checks in sequence,
generates the summary status, best-effort-inserts a log row unless in dry
run (an insert exception is swallowed with `pass`), and exits 0 exactly
when the status is `"healthy"`. -/
def hc_main (env : HCEnv) : HCRun :=
  let header : List String :=
    [sepLine, "Pull-Up Club System Health Check",
     "Time: " ++ env.now ++ "Z",
     "Mode: " ++ (if env.dryRun then "DRY RUN" else "LIVE"), sepLine]
  let sql := run_sql_health_check env
  let email := check_email_queue_health env
  let graphics := check_monthly_graphics env
  let edge := check_edge_function_health env
  let results : HCResults := ⟨sql.1, email.1, graphics.1, edge.1⟩
  let summary := generate_summary_report results
  let status := summary.1
  let out := header ++ sql.2 ++ email.2 ++ graphics.2 ++ edge.2 ++ summary.2 ++
    ["\n" ++ sepLine, "HEALTH CHECK COMPLETE", sepLine]
  let evs : List HCEv :=
    if env.dryRun then []
    else [HCEv.healthInsert "DAILY_HEALTH_CHECK" status results env.now]
  { exitCode := if status = "healthy" then 0 else 1,
    status := status,
    output := out,
    events := evs,
    results := results }

/-- Is the event a `process_submission_earnings` repair call? -/
def DCEv.isProcCall : DCEv → Bool
  | .processEarningsCall _ _ _ => true
  | .payoutUpdateCall _ _ _ => false
  | .monitoringInsert _ _ _ => false

/-- Is the event a `payout_requests` update call? -/
def DCEv.isPayoutUpd : DCEv → Bool
  | .processEarningsCall _ _ _ => false
  | .payoutUpdateCall _ _ _ => true
  | .monitoringInsert _ _ _ => false

/-- Is the event a `monitoring.system_errors` insert? -/
def DCEv.isMonInsert : DCEv → Bool
  | .processEarningsCall _ _ _ => false
  | .payoutUpdateCall _ _ _ => false
  | .monitoringInsert _ _ _ => true

/-- Did the call return without raising? -/
def isOkB {α : Type} : Except String α → Bool
  | .ok _ => true
  | .error _ => false

/-- Does `pat` occur as a contiguous subsequence of `hay`? -/
def containsSeq (hay pat : List Char) : Bool :=
  match hay with
  | [] => pat.isEmpty
  | _ :: t => pat.isPrefixOf hay || containsSeq t pat

/-- Does the string `s` contain `pat` as a substring? -/
def hasSub (s pat : String) : Bool :=
  containsSeq s.toList pat.toList

/-- No printed line contains the substring `"Found"`. -/
def noFoundLines (out : List String) : Prop :=
  ∀ l ∈ out, hasSub l "Found" = false

instance (out : List String) : Decidable (noFoundLines out) := by
  unfold noFoundLines; infer_instance

/-- The `results` dict of a health-checker run, as a function of the
environment. -/
def hcResults (env : HCEnv) : HCResults :=
  ⟨(run_sql_health_check env).1, (check_email_queue_health env).1,
   (check_monthly_graphics env).1, (check_edge_function_health env).1⟩

/-- A consistency-checker environment forced into live mode with a given
missing-earnings report result. -/
def dcLiveEnv (env : DCEnv) (subs : List Submission) : DCEnv :=
  { env with dryRun := false, rpcMissingEarnings := .ok (some subs) }

/-- A consistency-checker environment forced into dry-run mode. -/
def dcDryEnv (env : DCEnv) : DCEnv :=
  { env with dryRun := true }

/-- A health-checker environment forced into dry-run mode. -/
def hcDryEnv (env : HCEnv) : HCEnv :=
  { env with dryRun := true }

/-- A consistency-checker environment whose missing-earnings report raises. -/
def dcErr1 (env : DCEnv) (e : String) : DCEnv :=
  { env with rpcMissingEarnings := .error e }

/-- A consistency-checker environment whose payout-mismatch report raises. -/
def dcErr2 (env : DCEnv) (e : String) : DCEnv :=
  { env with rpcPayoutMismatches := .error e }

/-- A consistency-checker environment whose pool-balance report raises. -/
def dcErr3 (env : DCEnv) (e : String) : DCEnv :=
  { env with rpcPoolBalanceIssues := .error e }

/-- A health-checker environment whose `run_system_health_check` RPC raises. -/
def hcErrSql (env : HCEnv) (e : String) : HCEnv :=
  { env with rpcRunSystemHealthCheck := .error e }

/-- A health-checker environment whose email-queue select and
missing-graphics RPC both raise. -/
def hcBothErr (env : HCEnv) (e1 e2 : String) : HCEnv :=
  { env with emailSelect := .error e1, rpcMissingGraphics := .error e2 }

/-- A health-checker environment whose edge-function check raises with an
empty exception message. -/
def hcEdgeEmptyErr (env : HCEnv) : HCEnv :=
  { env with recentApprovedSelect := .error "" }

/-- A consistency-checker environment with every report emptied. -/
def dcEmptyEnv (env : DCEnv) : DCEnv :=
  { env with
    rpcMissingEarnings := .ok (some [])
    rpcPayoutMismatches := .ok (some [])
    rpcPoolBalanceIssues := .ok (some []) }

/-- A health-checker environment with every remote call returning an empty
result. -/
def hcEmptyEnv (env : HCEnv) : HCEnv :=
  { env with
    rpcRunSystemHealthCheck := .ok none
    emailSelect := .ok (some [])
    stuckSelect := .ok (some 0)
    rpcMissingGraphics := .ok (some [])
    pendingGraphicSelect := .ok (some 0)
    recentApprovedSelect := .ok (some [])
    earningsCountSelect := fun _ => .ok (some 0) }

/-- A baseline consistency-checker environment for concrete runs. -/
def dcBase : DCEnv :=
  { dryRun := false
    now := "2026-01-01T00:00:00"
    rpcMissingEarnings := .ok (some [])
    rpcPayoutMismatches := .ok (some [])
    rpcPoolBalanceIssues := .ok (some [])
    procEarnings := fun _ => .ok none
    updPayoutRequests := fun _ => .ok none
    insertMonitoring := .ok () }

/-- A baseline health-checker environment for concrete runs: every
subsystem healthy. -/
def hcBase : HCEnv :=
  { dryRun := false
    now := "2026-01-01T00:00:00"
    prevMonth := "2025-12"
    rpcRunSystemHealthCheck := .ok (some
      { overall_status := some "healthy"
        weekly_pool_action := some "exists"
        weekly_pool_week_start := some "2025-12-29"
        weekly_pool_week_end := some "2026-01-04"
        duplicates_fixed := 0
        pools_fixed := 0
        pool_fix_details := []
        payouts_issues_found := 0
        payouts_month := some "2025-12"
        payouts_issues := []
        pending_emails := 0 })
    emailSelect := .ok (some [])
    stuckSelect := .ok (some 0)
    rpcMissingGraphics := .ok (some [])
    pendingGraphicSelect := .ok (some 0)
    recentApprovedSelect := .ok (some [])
    earningsCountSelect := fun _ => .ok (some 0)
    insertHealthResult := .ok () }

/-- The concrete environment of the C7 scenario: live mode, one payout
mismatch for Jane Doe, all other reports empty. -/
def janeDoe : Mismatch :=
  { payout_id := "p1", full_name := "Jane Doe", current_amount := 40, correct_amount := 45 }

/-- The concrete C7 environment itself. -/
def c7Env : DCEnv :=
  { dcBase with rpcPayoutMismatches := Except.ok (some [janeDoe]) }

/-- A health-checker environment whose stuck-email count is 1. -/
def hcStuckEnv : HCEnv :=
  { hcBase with stuckSelect := .ok (some 1) }

/-- A submission used in concrete fix-loop runs. -/
def subA : Submission :=
  { submission_id := "s1", user_id := "u1", actual_pull_up_count := 12, full_name := "Ann A" }


lemma dcCheck1_issues (env : DCEnv) :
    (dcCheck1 env).issues = reportLen env.rpcMissingEarnings := by
  rcases h : env.rpcMissingEarnings with e | d
  · simp [dcCheck1, check_missing_earnings, reportLen, h]
  · rcases d with _ | l
    · simp [dcCheck1, check_missing_earnings, reportLen, h]
    · rcases l with _ | ⟨a, as⟩
      · simp [dcCheck1, check_missing_earnings, reportLen, h]
      · by_cases hd : env.dryRun <;>
          simp [dcCheck1, check_missing_earnings, reportLen, h, hd]

lemma dcCheck2_issues (env : DCEnv) :
    (dcCheck2 env).issues = reportLen env.rpcPayoutMismatches := by
  rcases h : env.rpcPayoutMismatches with e | d
  · simp [dcCheck2, check_payout_mismatches, reportLen, h]
  · rcases d with _ | l
    · simp [dcCheck2, check_payout_mismatches, reportLen, h]
    · rcases l with _ | ⟨a, as⟩
      · simp [dcCheck2, check_payout_mismatches, reportLen, h]
      · by_cases hd : env.dryRun <;>
          simp [dcCheck2, check_payout_mismatches, reportLen, h, hd]

lemma dcCheck3_issues (env : DCEnv) :
    (dcCheck3 env).issues = reportLen env.rpcPoolBalanceIssues := by
  rcases h : env.rpcPoolBalanceIssues with e | d
  · simp [dcCheck3, check_pool_balance_issues, reportLen, h]
  · rcases d with _ | l
    · simp [dcCheck3, check_pool_balance_issues, reportLen, h]
    · rcases l with _ | ⟨a, as⟩ <;>
        simp [dcCheck3, check_pool_balance_issues, reportLen, h]

lemma dc_main_totalIssues (env : DCEnv) :
    (dc_main env).totalIssues = dcTotalIssuesSpec env := by
  have h1 := dcCheck1_issues env
  have h2 := dcCheck2_issues env
  have h3 := dcCheck3_issues env
  simp [dc_main, dcTotalIssuesSpec, h1, h2, h3]

lemma dc_main_exitCode (env : DCEnv) :
    (dc_main env).exitCode = if 0 < dcTotalIssuesSpec env then 1 else 0 := by
  have h1 := dcCheck1_issues env
  have h2 := dcCheck2_issues env
  have h3 := dcCheck3_issues env
  simp [dc_main, dcTotalIssuesSpec, h1, h2, h3]

lemma fme_counts (env : DCEnv) (subs : List Submission) :
    (fix_missing_earnings env subs).1.fixed + (fix_missing_earnings env subs).1.failed
      = subs.length := by
  induction subs with
  | nil => rfl
  | cons sub rest ih =>
      rcases h : env.procEarnings sub with e | data
      · simp [fix_missing_earnings, h]; omega
      · by_cases ht : dataTruthy data <;> simp [fix_missing_earnings, h, ht] <;> omega

lemma fme_events (env : DCEnv) (subs : List Submission) :
    (fix_missing_earnings env subs).2.2 =
      subs.map (fun s =>
        DCEv.processEarningsCall s.submission_id s.user_id s.actual_pull_up_count) := by
  induction subs with
  | nil => rfl
  | cons sub rest ih => simp [fix_missing_earnings, ih]

lemma fpm_events (env : DCEnv) (ms : List Mismatch) :
    (fix_payout_mismatches env ms).2.2 =
      ms.map (fun m => DCEv.payoutUpdateCall m.payout_id m.correct_amount env.now) := by
  induction ms with
  | nil => rfl
  | cons m rest ih => simp [fix_payout_mismatches, ih]

lemma fpm_fixed (env : DCEnv) (ms : List Mismatch) :
    (fix_payout_mismatches env ms).1.fixed =
      (ms.filter (fun m => isOkB (env.updPayoutRequests m))).length := by
  induction ms with
  | nil => rfl
  | cons m rest ih =>
      rcases h : env.updPayoutRequests m with e | r <;>
        simp [fix_payout_mismatches, List.filter_cons, h, isOkB, ih] <;> omega

lemma fpm_failed (env : DCEnv) (ms : List Mismatch) :
    (fix_payout_mismatches env ms).1.failed =
      (ms.filter (fun m => !isOkB (env.updPayoutRequests m))).length := by
  induction ms with
  | nil => rfl
  | cons m rest ih =>
      rcases h : env.updPayoutRequests m with e | r <;>
        simp [fix_payout_mismatches, List.filter_cons, h, isOkB, ih] <;> omega

lemma fpm_counts (env : DCEnv) (ms : List Mismatch) :
    (fix_payout_mismatches env ms).1.fixed + (fix_payout_mismatches env ms).1.failed
      = ms.length := by
  induction ms with
  | nil => rfl
  | cons m rest ih =>
      rcases h : env.updPayoutRequests m with e | r <;>
        simp [fix_payout_mismatches, h] <;> omega

lemma dcCheck1_dry (env : DCEnv) (h : env.dryRun = true) :
    (dcCheck1 env).events = [] ∧ (dcCheck1 env).fixed = 0 := by
  rcases he : env.rpcMissingEarnings with e | d
  · simp [dcCheck1, check_missing_earnings, he]
  · rcases d with _ | l
    · simp [dcCheck1, check_missing_earnings, he]
    · rcases l with _ | ⟨a, as⟩ <;> simp [dcCheck1, check_missing_earnings, he, h]

lemma dcCheck2_dry (env : DCEnv) (h : env.dryRun = true) :
    (dcCheck2 env).events = [] ∧ (dcCheck2 env).fixed = 0 := by
  rcases he : env.rpcPayoutMismatches with e | d
  · simp [dcCheck2, check_payout_mismatches, he]
  · rcases d with _ | l
    · simp [dcCheck2, check_payout_mismatches, he]
    · rcases l with _ | ⟨a, as⟩ <;> simp [dcCheck2, check_payout_mismatches, he, h]

lemma dcCheck3_fixed (env : DCEnv) : (dcCheck3 env).fixed = 0 := by
  rcases he : env.rpcPoolBalanceIssues with e | d
  · simp [dcCheck3, check_pool_balance_issues, he]
  · rcases d with _ | l
    · simp [dcCheck3, check_pool_balance_issues, he]
    · rcases l with _ | ⟨a, as⟩ <;> simp [dcCheck3, check_pool_balance_issues, he]

lemma dcCheck3_events (env : DCEnv) : (dcCheck3 env).events = [] := by
  rcases he : env.rpcPoolBalanceIssues with e | d
  · simp [dcCheck3, check_pool_balance_issues, he]
  · rcases d with _ | l
    · simp [dcCheck3, check_pool_balance_issues, he]
    · rcases l with _ | ⟨a, as⟩ <;> simp [dcCheck3, check_pool_balance_issues, he]

lemma dc_main_events (env : DCEnv) :
    (dc_main env).events = (dcCheck1 env).events ++ (dcCheck2 env).events ++
      (if 0 < (dc_main env).totalIssues ∧ env.dryRun = false then
        [DCEv.monitoringInsert "DAILY_CONSISTENCY_CHECK"
          ("Found " ++ toString (dc_main env).totalIssues ++ " issues, fixed " ++
            toString (dc_main env).totalFixed) (dc_main env).details]
       else []) := by
  rcases hm : env.insertMonitoring with e | u <;>
    simp [dc_main, log_check_result, hm, apply_ite Prod.snd]

lemma dc_main_details (env : DCEnv) :
    (dc_main env).details =
      (dcCheck1 env).details ++ (dcCheck2 env).details ++ (dcCheck3 env).details := by
  simp [dc_main]

lemma dc_main_totalFixed (env : DCEnv) :
    (dc_main env).totalFixed = (dcCheck1 env).fixed + (dcCheck2 env).fixed := by
  simp [dc_main, dcCheck3_fixed]

lemma dcCheck1_events_live (env : DCEnv) (subs : List Submission)
    (hd : env.dryRun = false) (hr : env.rpcMissingEarnings = .ok (some subs)) :
    (dcCheck1 env).events =
      subs.map (fun s =>
        DCEv.processEarningsCall s.submission_id s.user_id s.actual_pull_up_count) := by
  rcases subs with _ | ⟨a, as⟩
  · simp [dcCheck1, check_missing_earnings, hr]
  · simp [dcCheck1, check_missing_earnings, hr, hd, fme_events]

lemma dcCheck1_events_err (env : DCEnv) (e : String)
    (hr : env.rpcMissingEarnings = .error e) :
    (dcCheck1 env).events = [] := by
  simp [dcCheck1, check_missing_earnings, hr]

lemma dcCheck2_events_filter_proc (env : DCEnv) :
    (dcCheck2 env).events.filter DCEv.isProcCall = [] := by
  rcases he : env.rpcPayoutMismatches with e | d
  · simp [dcCheck2, check_payout_mismatches, he]
  · rcases d with _ | l
    · simp [dcCheck2, check_payout_mismatches, he]
    · rcases l with _ | ⟨a, as⟩
      · simp [dcCheck2, check_payout_mismatches, he]
      · by_cases hd : env.dryRun
        · simp [dcCheck2, check_payout_mismatches, he, hd]
        · simp [dcCheck2, check_payout_mismatches, he, hd, fpm_events,
            List.filter_map, Function.comp_def, DCEv.isProcCall]

lemma dcCheck1_events_filter_upd (env : DCEnv) :
    (dcCheck1 env).events.filter DCEv.isPayoutUpd = [] := by
  rcases he : env.rpcMissingEarnings with e | d
  · simp [dcCheck1, check_missing_earnings, he]
  · rcases d with _ | l
    · simp [dcCheck1, check_missing_earnings, he]
    · rcases l with _ | ⟨a, as⟩
      · simp [dcCheck1, check_missing_earnings, he]
      · by_cases hd : env.dryRun
        · simp [dcCheck1, check_missing_earnings, he, hd]
        · simp [dcCheck1, check_missing_earnings, he, hd, fme_events,
            List.filter_map, Function.comp_def, DCEv.isPayoutUpd]

lemma dcCheck2_events_filter_upd (env : DCEnv) (hd : env.dryRun = false) :
    ((dcCheck2 env).events.filter DCEv.isPayoutUpd).length =
      reportLen env.rpcPayoutMismatches := by
  rcases he : env.rpcPayoutMismatches with e | d
  · simp [dcCheck2, check_payout_mismatches, he, reportLen]
  · rcases d with _ | l
    · simp [dcCheck2, check_payout_mismatches, he, reportLen]
    · rcases l with _ | ⟨a, as⟩
      · simp [dcCheck2, check_payout_mismatches, he, reportLen]
      · simp [dcCheck2, check_payout_mismatches, he, hd, fpm_events, reportLen,
          List.filter_map, Function.comp_def, DCEv.isPayoutUpd]

lemma dcCheck1_any_mon (env : DCEnv) :
    (dcCheck1 env).events.any DCEv.isMonInsert = false := by
  rcases he : env.rpcMissingEarnings with e | d
  · simp [dcCheck1, check_missing_earnings, he]
  · rcases d with _ | l
    · simp [dcCheck1, check_missing_earnings, he]
    · rcases l with _ | ⟨a, as⟩
      · simp [dcCheck1, check_missing_earnings, he]
      · by_cases hd : env.dryRun
        · simp [dcCheck1, check_missing_earnings, he, hd]
        · simp [dcCheck1, check_missing_earnings, he, hd, fme_events,
            List.any_map, Function.comp_def, DCEv.isMonInsert]

lemma dcCheck2_any_mon (env : DCEnv) :
    (dcCheck2 env).events.any DCEv.isMonInsert = false := by
  rcases he : env.rpcPayoutMismatches with e | d
  · simp [dcCheck2, check_payout_mismatches, he]
  · rcases d with _ | l
    · simp [dcCheck2, check_payout_mismatches, he]
    · rcases l with _ | ⟨a, as⟩
      · simp [dcCheck2, check_payout_mismatches, he]
      · by_cases hd : env.dryRun
        · simp [dcCheck2, check_payout_mismatches, he, hd]
        · simp [dcCheck2, check_payout_mismatches, he, hd, fpm_events,
            List.any_map, Function.comp_def, DCEv.isMonInsert]

lemma hc_main_results (env : HCEnv) : (hc_main env).results = hcResults env := rfl

lemma issuesList_nil_iff (r : HCResults) :
    issuesList r = [] ↔
      (r.sql_health.overallStatus = some "healthy" ∧ emailStuck r.email_queue = 0 ∧
       emailFailed r.email_queue ≤ 10 ∧ graphicsMissing r.monthly_graphics = 0 ∧
       edgeErrorTruthy r.edge_functions = false) := by
  have h : issuesList r = [] ↔
      (¬(r.sql_health.overallStatus ≠ some "healthy") ∧ ¬(0 < emailStuck r.email_queue) ∧
       ¬(10 < emailFailed r.email_queue) ∧ ¬(0 < graphicsMissing r.monthly_graphics) ∧
       edgeErrorTruthy r.edge_functions = false) := by
    unfold issuesList edgeErrorTruthy
    rcases hedge : edgeError r.edge_functions with _ | e <;> split_ifs <;> simp_all <;>
      try (split_ifs <;> simp_all)
  rw [h]
  constructor
  · rintro ⟨a, b, c, d, e⟩
    exact ⟨not_not.mp a, by omega, by omega, by omega, e⟩
  · rintro ⟨a, b, c, d, e⟩
    exact ⟨by simp [a], by omega, by omega, by omega, e⟩

lemma generate_summary_fst (r : HCResults) :
    (generate_summary_report r).1 =
      if issuesList r = [] then "healthy" else "issues_found" := by
  unfold generate_summary_report
  rcases h : issuesList r with _ | ⟨a, l⟩ <;> simp [h]

lemma hc_main_status (env : HCEnv) :
    (hc_main env).status =
      if issuesList (hcResults env) = [] then "healthy" else "issues_found" :=
  generate_summary_fst (hcResults env)

lemma hc_main_exit (env : HCEnv) :
    (hc_main env).exitCode = if (hc_main env).status = "healthy" then 0 else 1 := rfl

lemma hc_main_events (env : HCEnv) :
    (hc_main env).events =
      if env.dryRun then []
      else [HCEv.healthInsert "DAILY_HEALTH_CHECK" (hc_main env).status (hcResults env) env.now] :=
  rfl

/-- C1: the consistency checker's exit code is 1 exactly when the total
number of issues found — the sum of the lengths of the three issue lists
the report calls returned — is positive (whatever the repair outcomes
were), and 0 otherwise. -/
theorem claim_C1 (env : DCEnv) :
    (dc_main env).exitCode = if 0 < dcTotalIssuesSpec env then 1 else 0 :=
  dc_main_exitCode env

/-- C2: with dry-run disabled and the missing-earnings report returning
`subs`, the run issues exactly one `process_submission_earnings` repair
call per record (in order), and the fix loop's fixed count plus failed
count equals the number of records. -/
theorem claim_C2 (env : DCEnv) (subs : List Submission) :
    ((dc_main (dcLiveEnv env subs)).events.filter DCEv.isProcCall) =
      subs.map (fun s =>
        DCEv.processEarningsCall s.submission_id s.user_id s.actual_pull_up_count) ∧
    ((dc_main (dcLiveEnv env subs)).events.filter DCEv.isProcCall).length = subs.length ∧
    (fix_missing_earnings (dcLiveEnv env subs) subs).1.fixed +
      (fix_missing_earnings (dcLiveEnv env subs) subs).1.failed = subs.length := by
  have hd : (dcLiveEnv env subs).dryRun = false := rfl
  have hr : (dcLiveEnv env subs).rpcMissingEarnings = .ok (some subs) := rfl
  have h1 := dcCheck1_events_live (dcLiveEnv env subs) subs hd hr
  have hfilter : ((dc_main (dcLiveEnv env subs)).events.filter DCEv.isProcCall) =
      subs.map (fun s =>
        DCEv.processEarningsCall s.submission_id s.user_id s.actual_pull_up_count) := by
    rw [dc_main_events, List.filter_append, List.filter_append, h1,
      dcCheck2_events_filter_proc]
    simp [List.filter_map, Function.comp_def, DCEv.isProcCall, apply_ite
      (List.filter DCEv.isProcCall)]
  refine ⟨hfilter, ?_, fme_counts (dcLiveEnv env subs) subs⟩
  rw [hfilter]
  simp

/-- C3: with dry-run enabled, neither script issues any mutating remote
call (no earnings-repair call, no payout update, no monitoring insert),
and the consistency checker's reported total fixed count is 0, for any
report results. -/
theorem claim_C3 (env : DCEnv) (henv : HCEnv) :
    (dc_main (dcDryEnv env)).events = [] ∧
    (dc_main (dcDryEnv env)).totalFixed = 0 ∧
    (hc_main (hcDryEnv henv)).events = [] := by
  have hd : (dcDryEnv env).dryRun = true := rfl
  have h1 := dcCheck1_dry (dcDryEnv env) hd
  have h2 := dcCheck2_dry (dcDryEnv env) hd
  refine ⟨?_, ?_, ?_⟩
  · rw [dc_main_events]
    simp [h1.1, h2.1, hd]
  · rw [dc_main_totalFixed]
    simp [h1.2, h2.2]
  · rw [hc_main_events]
    simp [hcDryEnv]

/-- C9: in `fix_payout_mismatches` the fixed count is exactly the number
of update calls that did not raise — the call's result content is never
inspected — and the failed count exactly the raising ones, so
fixed + failed equals the number of input records; by contrast
`fix_missing_earnings` counts a non-raising call without a truthy
success flag as failed. -/
theorem claim_C9 (env : DCEnv) (ms : List Mismatch) :
    (fix_payout_mismatches env ms).1.fixed =
      (ms.filter (fun m => isOkB (env.updPayoutRequests m))).length ∧
    (fix_payout_mismatches env ms).1.failed =
      (ms.filter (fun m => !isOkB (env.updPayoutRequests m))).length ∧
    (fix_payout_mismatches env ms).1.fixed + (fix_payout_mismatches env ms).1.failed
      = ms.length ∧
    (∀ (sub : Submission) (d : Option EarningsData),
      env.procEarnings sub = .ok d → dataTruthy d = false →
      (fix_missing_earnings env [sub]).1 = ⟨0, 1⟩) := by
  refine ⟨fpm_fixed env ms, fpm_failed env ms, fpm_counts env ms, ?_⟩
  intro sub d h ht
  simp [fix_missing_earnings, h, ht]

/-- C9 witness: a run where the earnings repair returns ok data without a
success flag is counted as failed. -/
theorem claim_C9_witness :
    (fix_missing_earnings dcBase [subA]).1 = ⟨0, 1⟩ :=
  (claim_C9 dcBase []).2.2.2 subA none rfl rfl

/-- C8: summary logging is best-effort: the consistency checker attempts
its monitoring insert exactly when issues were found in live mode, the
health checker attempts its insert exactly when not in dry run, and in
both scripts a raising insert leaves the run's exit code (indeed, for the
health checker, the whole run result) unchanged. -/
theorem claim_C8 (env : DCEnv) (henv : HCEnv) (e : String) :
    ((dc_main env).events.any DCEv.isMonInsert = true ↔
      (0 < dcTotalIssuesSpec env ∧ env.dryRun = false)) ∧
    (dc_main { env with insertMonitoring := .error e }).exitCode =
      (dc_main { env with insertMonitoring := .ok () }).exitCode ∧
    ((hc_main henv).events = [] ↔ henv.dryRun = true) ∧
    (hc_main { henv with insertHealthResult := .error e }) =
      (hc_main { henv with insertHealthResult := .ok () }) := by
  refine ⟨?_, ?_, ?_, rfl⟩
  · rw [dc_main_events, dc_main_totalIssues]
    split_ifs with hcond <;>
      simp [List.any_append, dcCheck1_any_mon, dcCheck2_any_mon, DCEv.isMonInsert, hcond]
  · rw [dc_main_exitCode, dc_main_exitCode]
    rfl
  · cases hd : henv.dryRun <;> simp [hc_main_events, hd]

/-- C5: if the email-queue check reports a positive stuck count the health
status is "issues_found"; if all sub-checks report no problems the status
is "healthy"; and the exit code is 0 exactly when the status is
"healthy", else 1. -/
theorem claim_C5 (env : HCEnv) :
    (0 < emailStuck (hc_main env).results.email_queue →
      (hc_main env).status = "issues_found") ∧
    ((hc_main env).results.sql_health.overallStatus = some "healthy" →
      emailStuck (hc_main env).results.email_queue = 0 →
      emailFailed (hc_main env).results.email_queue ≤ 10 →
      graphicsMissing (hc_main env).results.monthly_graphics = 0 →
      edgeError (hc_main env).results.edge_functions = none →
      (hc_main env).status = "healthy") ∧
    (hc_main env).exitCode = (if (hc_main env).status = "healthy" then 0 else 1) := by
  refine ⟨?_, ?_, hc_main_exit env⟩
  · intro h
    rw [hc_main_results] at h
    by_cases hnil : issuesList (hcResults env) = []
    · have hc := (issuesList_nil_iff _).mp hnil
      omega
    · rw [hc_main_status, if_neg hnil]
  · intro h1 h2 h3 h4 h5
    rw [hc_main_results] at h1 h2 h3 h4 h5
    have h5t : edgeErrorTruthy (hcResults env).edge_functions = false := by
      simp [edgeErrorTruthy, h5]
    have hnil : issuesList (hcResults env) = [] :=
      (issuesList_nil_iff _).mpr ⟨h1, h2, h3, h4, h5t⟩
    rw [hc_main_status, if_pos hnil]

/-- C5 witness: a concrete stuck-email run reports issues, a concrete
all-healthy run reports healthy. -/
theorem claim_C5_witness :
    (hc_main hcStuckEnv).status = "issues_found" ∧ (hc_main hcBase).status = "healthy" :=
  ⟨(claim_C5 hcStuckEnv).1 (by decide),
   (claim_C5 hcBase).2.1 (by decide) (by decide) (by decide) (by decide) (by decide)⟩

/-- C10: an exception inside the email-queue check or the monthly-graphics
check degrades them to an error / skipped result that contributes nothing
to the issue list, so the overall status can still be "healthy"; the
status is "issues_found" exactly when the SQL health status is not
"healthy", emails are stuck, more than 10 emails failed, graphics are
missing, or the edge-function check recorded a truthy (nonempty) error
string — `if edge.get("error"):` uses Python truthiness, so an
edge-function exception with an empty message also leaves the status
"healthy". -/
theorem claim_C10 (henv : HCEnv) (e1 e2 : String) :
    (hc_main (hcBothErr henv e1 e2)).results.email_queue = EmailResult.err e1 ∧
    (hc_main (hcBothErr henv e1 e2)).results.monthly_graphics = GraphicsResult.skipped ∧
    ((hc_main (hcBothErr henv e1 e2)).results.sql_health.overallStatus = some "healthy" →
      edgeError (hc_main (hcBothErr henv e1 e2)).results.edge_functions = none →
      (hc_main (hcBothErr henv e1 e2)).status = "healthy") ∧
    (hc_main (hcEdgeEmptyErr henv)).results.edge_functions = EdgeResult.err "" ∧
    ((hc_main (hcEdgeEmptyErr henv)).results.sql_health.overallStatus = some "healthy" →
      emailStuck (hc_main (hcEdgeEmptyErr henv)).results.email_queue = 0 →
      emailFailed (hc_main (hcEdgeEmptyErr henv)).results.email_queue ≤ 10 →
      graphicsMissing (hc_main (hcEdgeEmptyErr henv)).results.monthly_graphics = 0 →
      (hc_main (hcEdgeEmptyErr henv)).status = "healthy") ∧
    (∀ env2 : HCEnv, (hc_main env2).status = "issues_found" ↔
      ¬((hc_main env2).results.sql_health.overallStatus = some "healthy" ∧
        emailStuck (hc_main env2).results.email_queue = 0 ∧
        emailFailed (hc_main env2).results.email_queue ≤ 10 ∧
        graphicsMissing (hc_main env2).results.monthly_graphics = 0 ∧
        edgeErrorTruthy (hc_main env2).results.edge_functions = false)) := by
  refine ⟨rfl, rfl, ?_, rfl, ?_, ?_⟩
  · intro h1 h5
    rw [hc_main_results] at h1 h5
    have h5t : edgeErrorTruthy (hcResults (hcBothErr henv e1 e2)).edge_functions = false := by
      simp [edgeErrorTruthy, h5]
    have hnil : issuesList (hcResults (hcBothErr henv e1 e2)) = [] :=
      (issuesList_nil_iff _).mpr ⟨h1, rfl, Nat.zero_le 10, rfl, h5t⟩
    rw [hc_main_status, if_pos hnil]
  · intro h1 h2 h3 h4
    rw [hc_main_results] at h1 h2 h3 h4
    have hnil : issuesList (hcResults (hcEdgeEmptyErr henv)) = [] :=
      (issuesList_nil_iff _).mpr ⟨h1, h2, h3, h4, rfl⟩
    rw [hc_main_status, if_pos hnil]
  · intro env2
    rw [hc_main_results, hc_main_status]
    by_cases hnil : issuesList (hcResults env2) = []
    · have hc := (issuesList_nil_iff _).mp hnil
      simp only [if_pos hnil]
      constructor
      · intro hcontra
        exact absurd hcontra (by decide)
      · intro hcontra
        exact absurd hc hcontra
    · simp only [if_neg hnil]
      constructor
      · intro _ hcond
        exact hnil ((issuesList_nil_iff _).mpr hcond)
      · intro _
        trivial

/-- C10 witness: a run in which both the email-queue check and the
graphics check raise still reports "healthy" when everything else is
fine, as does a run whose edge-function check raises with an empty
message. -/
theorem claim_C10_witness :
    (hc_main (hcBothErr hcBase "boom" "nope")).status = "healthy" ∧
    (hc_main (hcEdgeEmptyErr hcBase)).status = "healthy" :=
  ⟨(claim_C10 hcBase "boom" "nope").2.2.1 (by decide) (by decide),
   (claim_C10 hcBase "" "").2.2.2.2.1 (by decide) (by decide) (by decide) (by decide)⟩

lemma dcCheck2_header_mem (env : DCEnv) :
    "\n[2/3] Checking for payout amount mismatches..." ∈ (dcCheck2 env).output := by
  rcases he : env.rpcPayoutMismatches with e | d
  · simp [dcCheck2, check_payout_mismatches, he]
  · rcases d with _ | l
    · simp [dcCheck2, check_payout_mismatches, he]
    · rcases l with _ | ⟨a, as⟩
      · simp [dcCheck2, check_payout_mismatches, he]
      · by_cases hd : env.dryRun <;> simp [dcCheck2, check_payout_mismatches, he, hd]

lemma dcCheck3_header_mem (env : DCEnv) :
    "\n[3/3] Checking for pool balance discrepancies..." ∈ (dcCheck3 env).output := by
  rcases he : env.rpcPoolBalanceIssues with e | d
  · simp [dcCheck3, check_pool_balance_issues, he]
  · rcases d with _ | l
    · simp [dcCheck3, check_pool_balance_issues, he]
    · rcases l with _ | ⟨a, as⟩ <;> simp [dcCheck3, check_pool_balance_issues, he]

lemma mem_dc_output_c2 (env : DCEnv) (l : String) (h : l ∈ (dcCheck2 env).output) :
    l ∈ (dc_main env).output := by
  simp only [dc_main, List.mem_append]
  tauto

lemma mem_dc_output_c3 (env : DCEnv) (l : String) (h : l ∈ (dcCheck3 env).output) :
    l ∈ (dc_main env).output := by
  simp only [dc_main, List.mem_append]
  tauto

lemma hc_email_header_mem (env : HCEnv) :
    "\n[2/5] Checking email queue health..." ∈ (check_email_queue_health env).2 := by
  rcases he : env.emailSelect with e | d
  · simp [check_email_queue_health, he]
  · rcases hs : env.stuckSelect with e2 | c <;>
      simp only [check_email_queue_health, he, hs] <;> split_ifs <;> simp

lemma mem_hc_output_email (env : HCEnv) (l : String)
    (h : l ∈ (check_email_queue_health env).2) : l ∈ (hc_main env).output := by
  simp only [hc_main, List.mem_append]
  tauto

/-- C4: when a report-style remote call raises, that check contributes 0
to the issue total, an error key holding the stringified exception is
recorded in the detail map, the run still completes with a 0/1 exit code,
the subsequent checks still execute (their section headers are printed and
the live payout repairs of check 2 are still issued even when check 1
raised), and the health checker's raising SQL check degrades to an error
result with the following checks still running. -/
theorem claim_C4 (env : DCEnv) (henv : HCEnv) (e : String) :
    ("missing_earnings_error", DVal.str e) ∈ (dc_main (dcErr1 env e)).details ∧
    (dc_main (dcErr1 env e)).totalIssues =
      reportLen env.rpcPayoutMismatches + reportLen env.rpcPoolBalanceIssues ∧
    "\n[2/3] Checking for payout amount mismatches..." ∈ (dc_main (dcErr1 env e)).output ∧
    "\n[3/3] Checking for pool balance discrepancies..." ∈ (dc_main (dcErr1 env e)).output ∧
    ((dc_main (dcErr1 { env with dryRun := false } e)).events.filter DCEv.isPayoutUpd).length =
      reportLen env.rpcPayoutMismatches ∧
    ("payout_mismatch_error", DVal.str e) ∈ (dc_main (dcErr2 env e)).details ∧
    (dc_main (dcErr2 env e)).totalIssues =
      reportLen env.rpcMissingEarnings + reportLen env.rpcPoolBalanceIssues ∧
    ("pool_balance_error", DVal.str e) ∈ (dc_main (dcErr3 env e)).details ∧
    (dc_main (dcErr3 env e)).totalIssues =
      reportLen env.rpcMissingEarnings + reportLen env.rpcPayoutMismatches ∧
    ((dc_main (dcErr1 env e)).exitCode = 0 ∨ (dc_main (dcErr1 env e)).exitCode = 1) ∧
    (hc_main (hcErrSql henv e)).results.sql_health = SqlResult.err e ∧
    "\n[2/5] Checking email queue health..." ∈ (hc_main (hcErrSql henv e)).output := by
  refine ⟨?_, ?_, ?_, ?_, ?_, ?_, ?_, ?_, ?_, ?_, rfl, ?_⟩
  · rw [dc_main_details]
    simp [dcCheck1, check_missing_earnings, dcErr1]
  · rw [dc_main_totalIssues]
    simp [dcTotalIssuesSpec, dcErr1, reportLen]
  · exact mem_dc_output_c2 _ _ (dcCheck2_header_mem _)
  · exact mem_dc_output_c3 _ _ (dcCheck3_header_mem _)
  · rw [dc_main_events]
    simp only [List.filter_append, List.length_append]
    rw [dcCheck1_events_err _ e rfl, dcCheck2_events_filter_upd _ rfl]
    simp [apply_ite (List.filter DCEv.isPayoutUpd), DCEv.isPayoutUpd]
    rfl
  · rw [dc_main_details]
    simp [dcCheck2, check_payout_mismatches, dcErr2]
  · rw [dc_main_totalIssues]
    simp [dcTotalIssuesSpec, dcErr2, reportLen]
  · rw [dc_main_details]
    simp [dcCheck3, check_pool_balance_issues, dcErr3]
  · rw [dc_main_totalIssues]
    simp [dcTotalIssuesSpec, dcErr3, reportLen]
  · rw [dc_main_exitCode]
    split_ifs <;> simp
  · exact mem_hc_output_email _ _ (hc_email_header_mem _)

/-- C7: in live mode with the payout-mismatch report returning exactly the
Jane Doe record (payout p1, current 40, correct 45) and the other reports
empty, exactly one payout update call is issued, setting amount_dollars
45 on row p1; the output contains the substring "Jane Doe $40 → $45";
and the exit code is 1. -/
theorem claim_C7 :
    ((dc_main c7Env).events.filter DCEv.isPayoutUpd) =
      [DCEv.payoutUpdateCall "p1" 45 "2026-01-01T00:00:00"] ∧
    ((dc_main c7Env).output.any (fun l => hasSub l "Jane Doe $40 → $45")) = true ∧
    (dc_main c7Env).exitCode = 1 := by
  refine ⟨by decide, by decide, by decide⟩

/-- C6 counterexample: a health-checker run in which every remote call
returns an empty result exits with code 1, not 0 — the empty
`run_system_health_check` result degrades to an "error" status, which the
summary counts as an issue. -/
theorem claim_C6_counterexample :
    (hc_main (hcEmptyEnv hcBase)).exitCode = 1 ∧
    (hc_main (hcEmptyEnv hcBase)).exitCode ≠ 0 := by
  refine ⟨by decide, by decide⟩

/-- C6 (amended): when every remote call returns an empty result, the
consistency checker exits 0 and prints no "Found" line; the health
checker also prints no "Found" line but exits 1, because the empty
aggregate-health result is treated as an error status.  (The three
hypotheses record that the environment-supplied time and month strings do
not themselves contain "Found".) -/
theorem claim_C6_amended (env : DCEnv) (henv : HCEnv)
    (h1 : hasSub ("Time: " ++ env.now ++ "Z") "Found" = false)
    (h2 : hasSub ("Time: " ++ henv.now ++ "Z") "Found" = false)
    (h3 : hasSub ("  All graphics generated for " ++ henv.prevMonth) "Found" = false) :
    (dc_main (dcEmptyEnv env)).exitCode = 0 ∧
    noFoundLines (dc_main (dcEmptyEnv env)).output ∧
    (hc_main (hcEmptyEnv henv)).exitCode = 1 ∧
    noFoundLines (hc_main (hcEmptyEnv henv)).output := by
  have hout1 : (dc_main (dcEmptyEnv env)).output =
      [sepLine, "Pull-Up Club Daily Consistency Check", "Time: " ++ env.now ++ "Z",
       "Mode: " ++ (if env.dryRun then "DRY RUN" else "LIVE"), sepLine,
       "\n[1/3] Checking for approved submissions without earnings...", "  ✓ No issues found",
       "\n[2/3] Checking for payout amount mismatches...", "  ✓ No issues found",
       "\n[3/3] Checking for pool balance discrepancies...", "  ✓ No issues found",
       "\n" ++ sepLine, "SUMMARY", sepLine,
       "Total issues found: " ++ toString (0 : Nat),
       "Total issues fixed: " ++ toString (0 : Nat),
       "\n✅ All checks passed!"] := rfl
  have hout2 : (hc_main (hcEmptyEnv henv)).output =
      [sepLine, "Pull-Up Club System Health Check", "Time: " ++ henv.now ++ "Z",
       "Mode: " ++ (if henv.dryRun then "DRY RUN" else "LIVE"), sepLine,
       "\n[1/5] Running SQL health check...",
       "\n[2/5] Checking email queue health...",
       "  Pending: " ++ toString (0 : Nat) ++ ", Failed: " ++ toString (0 : Nat),
       "\n[3/5] Checking monthly graphics status...",
       "  All graphics generated for " ++ henv.prevMonth,
       "  Pending graphic emails: " ++ toString (0 : Nat),
       "\n[4/5] Checking Edge Function health...", "  No recent approvals to check",
       "\n[5/5] Generating summary...", "\n  ISSUES FOUND: " ++ toString (1 : Nat),
       "    - SQL health check found issues",
       "\n" ++ sepLine, "HEALTH CHECK COMPLETE", sepLine] := rfl
  refine ⟨rfl, ?_, rfl, ?_⟩
  · intro l hl
    rw [hout1] at hl
    simp only [List.mem_cons, List.not_mem_nil, or_false] at hl
    rcases hl with rfl|rfl|rfl|rfl|rfl|rfl|rfl|rfl|rfl|rfl|rfl|rfl|rfl|rfl|rfl|rfl|rfl
    all_goals first
      | exact h1
      | (cases env.dryRun <;> decide)
  · intro l hl
    rw [hout2] at hl
    simp only [List.mem_cons, List.not_mem_nil, or_false] at hl
    rcases hl with rfl|rfl|rfl|rfl|rfl|rfl|rfl|rfl|rfl|rfl|rfl|rfl|rfl|rfl|rfl|rfl|rfl|rfl|rfl
    all_goals first
      | exact h2
      | exact h3
      | (cases henv.dryRun <;> decide)

/-- C6 witness: the amended statement instantiated at concrete
environments. -/
theorem claim_C6_witness :
    (dc_main (dcEmptyEnv dcBase)).exitCode = 0 ∧
    (hc_main (hcEmptyEnv hcBase)).exitCode = 1 := by
  have h := claim_C6_amended dcBase hcBase (by decide) (by decide) (by decide)
  exact ⟨h.1, h.2.2.1⟩
